import Mathlib

/-!
Verification of the performance-gated deployment pipeline.

The repository ships a GitHub Actions workflow (`.github/workflows/performance.yml`),
a Lighthouse CI configuration (`lighthouserc.cjs`) and a small React application
(`src/App.tsx`).  The gating orchestrator itself (aggregator, assertion evaluator,
gate decision engine, artifact handoff, run state machine) is specified but not
present as code in the repository, so those components are modelled from the spec;
the Lighthouse assertion set, the `needs: lighthouse` deploy dependency and the
App component are taken from the source files.
-/

namespace PerfPipeline

/-- Metric category, from the `categories:*` keys of `lighthouserc.cjs`
(performance, accessibility, best-practices, seo) plus user-defined ones. -/
inductive Category where
  | performance
  | accessibility
  | bestPractices
  | seo
  | custom (idx : Nat)
  deriving DecidableEq

/-- Assertion severity.  `blocking` corresponds to the Lighthouse level `error`
(fails the CI job, blocks deploy); `advisory` corresponds to `warn`
(prints a warning, deploy continues). -/
inductive Severity where
  | blocking
  | advisory
  deriving DecidableEq

/-- One assertion rule: a category, a severity, and a minimum acceptable score,
as in the `assert.assertions` block of `lighthouserc.cjs`. -/
structure AssertionConfig where
  category : Category
  severity : Severity
  minScore : ℚ
  deriving DecidableEq

/-- The concrete assertion set of `lighthouserc.cjs`: performance is level
`error` (blocking), the other three categories level `warn` (advisory),
each with `minScore: 0.9`. -/
def lighthouseAssertions : List AssertionConfig :=
  [⟨Category.performance, Severity.blocking, 9/10⟩,
   ⟨Category.accessibility, Severity.advisory, 9/10⟩,
   ⟨Category.bestPractices, Severity.advisory, 9/10⟩,
   ⟨Category.seo, Severity.advisory, 9/10⟩]

/-- `numberOfRuns: 3` from the `collect` block of `lighthouserc.cjs`. -/
def numberOfRuns : Nat := 3

/-- Result of evaluating one `AssertionConfig` against one aggregated metric. -/
structure AssertionOutcome where
  category : Category
  severity : Severity
  threshold : ℚ
  score : ℚ
  satisfied : Bool
  missingMetric : Bool
  deriving DecidableEq

/-- Overall gate verdict for a run. -/
inductive GateVerdict where
  | pass
  | fail
  deriving DecidableEq

/-- Modelled from the spec: the Gate Decision Engine combines assertion outcomes
into one verdict; the verdict is `fail` exactly when some `blocking` outcome is
unsatisfied, mirroring the `error` level of `lighthouserc.cjs` which fails the
CI job while `warn` only prints a warning. -/
def gateVerdict (outcomes : List AssertionOutcome) : GateVerdict :=
  if outcomes.any (fun o => decide (o.severity = Severity.blocking) && !o.satisfied)
  then GateVerdict.fail else GateVerdict.pass

/-- Error raised by the Metric Aggregator when a required category has no samples. -/
inductive AggError where
  | MissingSamples
  deriving DecidableEq

/-- Modelled from the spec: the Metric Aggregator reduces the ordered sample
sequence of one category to its statistical median (sort ascending; odd count:
middle value; even count: average of the two middle values); fewer than 1
sample is a `MissingSamples` error.  The aggregator itself lives inside
Lighthouse CI (`numberOfRuns: 3`, "Run 3 times and use the median"), not in
the repository. -/
def aggregate (samples : List ℚ) : Except AggError ℚ :=
  if samples = [] then Except.error AggError.MissingSamples
  else if samples.length % 2 = 1 then
    Except.ok ((List.insertionSort (· ≤ ·) samples).getD (samples.length / 2) 0)
  else
    Except.ok (((List.insertionSort (· ≤ ·) samples).getD (samples.length / 2 - 1) 0
      + (List.insertionSort (· ≤ ·) samples).getD (samples.length / 2) 0) / 2)

/-- Modelled from the spec: aggregate every measured category; a `MissingSamples`
failure for any category fails the whole aggregation stage. -/
def aggregateAll (measured : List (Category × List ℚ)) :
    Except AggError (List (Category × ℚ)) :=
  match measured with
  | [] => Except.ok []
  | (c, samples) :: rest =>
    match aggregate samples with
    | Except.error e => Except.error e
    | Except.ok m =>
      match aggregateAll rest with
      | Except.error e => Except.error e
      | Except.ok ms => Except.ok ((c, m) :: ms)

/-- Look up the aggregated metric recorded for a category. -/
def lookupMetric (metrics : List (Category × ℚ)) (c : Category) : Option ℚ :=
  (metrics.find? (fun p => decide (p.1 = c))).map Prod.snd

/-- Modelled from the spec: the Assertion Evaluator produces one outcome per
config entry; `satisfied = (actual score ≥ threshold)`; a configured category
with no aggregated metric yields `satisfied = false` with the `missing-metric`
flag set, regardless of severity. -/
def evaluateOne (metrics : List (Category × ℚ)) (cfg : AssertionConfig) :
    AssertionOutcome :=
  match lookupMetric metrics cfg.category with
  | some score =>
      ⟨cfg.category, cfg.severity, cfg.minScore, score,
        decide (cfg.minScore ≤ score), false⟩
  | none =>
      ⟨cfg.category, cfg.severity, cfg.minScore, 0, false, true⟩

/-- Evaluate the whole configuration against the aggregated metrics. -/
def evaluate (cfgs : List AssertionConfig) (metrics : List (Category × ℚ)) :
    List AssertionOutcome :=
  cfgs.map (evaluateOne metrics)

/-- Per-run status, from the spec's state machine
`pending → running → {passed | failed | errored}`. -/
inductive Status where
  | pending
  | running
  | passed
  | failed
  | errored
  deriving DecidableEq

/-- Whether a status is terminal. -/
def terminal : Status → Bool
  | Status.passed => true
  | Status.failed => true
  | Status.errored => true
  | _ => false

/-- Error raised on an illegal state-machine transition. -/
inductive TransitionError where
  | InvalidTransition
  deriving DecidableEq

/-- Modelled from the spec: the run state machine accepts exactly
`pending → running` and `running → {passed, failed, errored}`; every other
attempted transition is rejected with `InvalidTransition`. -/
def transition : Status → Status → Except TransitionError Status
  | Status.pending, Status.running => Except.ok Status.running
  | Status.running, Status.passed => Except.ok Status.passed
  | Status.running, Status.failed => Except.ok Status.failed
  | Status.running, Status.errored => Except.ok Status.errored
  | _, _ => Except.error TransitionError.InvalidTransition

/-- Apply a transition attempt: on rejection the state is left unchanged and
the error reported alongside it. -/
def applyTransition (s target : Status) : Status × Option TransitionError :=
  match transition s target with
  | Except.ok s2 => (s2, none)
  | Except.error e => (s, some e)

/-- Pipeline stages, in order. -/
inductive Stage where
  | build
  | audit
  | evaluateStage
  | gate
  | deploy
  deriving DecidableEq

/-- Build collaborator failure. -/
inductive BuildError where
  | buildFailed
  deriving DecidableEq

/-- Publisher collaborator failure. -/
inductive PublishError where
  | publishFailed
  deriving DecidableEq

/-- The orchestrator's terminal output: run status, the full outcome set,
the gate verdict, which stages were invoked, and the deployment identifier. -/
structure RunRecord where
  status : Status
  outcomes : List AssertionOutcome
  verdict : Option GateVerdict
  stagesInvoked : List Stage
  deployInvoked : Bool
  deployId : Option Nat
  deriving DecidableEq

/-- Modelled from the spec: the Pipeline Orchestrator sequences
Build → Audit → Aggregate → Evaluate → Gate → (conditionally) Deploy,
mirroring the workflow's two jobs where `deploy` has `needs: lighthouse` and
only starts if the lighthouse job succeeds.  A stage failure transitions the
run to `errored` and halts the sequence; a failed gate skips only Deploy;
a publish failure leaves the gate-level status `passed` but records no
deployment identifier. -/
def runPipeline (cfgs : List AssertionConfig)
    (buildResult : Except BuildError Nat)
    (audit : Nat → List (Category × List ℚ))
    (publish : Nat → Except PublishError Nat) : RunRecord :=
  match buildResult with
  | Except.error _ =>
      { status := Status.errored, outcomes := [], verdict := none,
        stagesInvoked := [Stage.build], deployInvoked := false, deployId := none }
  | Except.ok art =>
      match aggregateAll (audit art) with
      | Except.error _ =>
          { status := Status.errored, outcomes := [], verdict := none,
            stagesInvoked := [Stage.build, Stage.audit],
            deployInvoked := false, deployId := none }
      | Except.ok metrics =>
          let outcomes := evaluate cfgs metrics
          match gateVerdict outcomes with
          | GateVerdict.pass =>
              match publish art with
              | Except.ok did =>
                  { status := Status.passed, outcomes := outcomes,
                    verdict := some GateVerdict.pass,
                    stagesInvoked := [Stage.build, Stage.audit,
                      Stage.evaluateStage, Stage.gate, Stage.deploy],
                    deployInvoked := true, deployId := some did }
              | Except.error _ =>
                  { status := Status.passed, outcomes := outcomes,
                    verdict := some GateVerdict.pass,
                    stagesInvoked := [Stage.build, Stage.audit,
                      Stage.evaluateStage, Stage.gate, Stage.deploy],
                    deployInvoked := true, deployId := none }
          | GateVerdict.fail =>
              { status := Status.failed, outcomes := outcomes,
                verdict := some GateVerdict.fail,
                stagesInvoked := [Stage.build, Stage.audit,
                  Stage.evaluateStage, Stage.gate],
                deployInvoked := false, deployId := none }

/-- Error results of the Artifact Handoff `retrieve` operation. -/
inductive RetrieveError where
  | NotFound
  | Expired
  deriving DecidableEq

/-- One stored artifact: the owning run id, the artifact handle, and — once
the run is terminal — the instant at which the retention grace period ends. -/
structure StoredEntry where
  runId : Nat
  artifact : Nat
  expiry : Option Nat
  deriving DecidableEq

/-- Modelled from the spec: Artifact Handoff `retrieve` — an unknown run id
yields `NotFound`; a stored artifact whose grace period has elapsed yields
`Expired`; otherwise the artifact handle is returned.  The repository realizes
this with `actions/upload-artifact` / `actions/download-artifact`. -/
def retrieve (store : List StoredEntry) (runId now : Nat) :
    Except RetrieveError Nat :=
  match store.find? (fun e => decide (e.runId = runId)) with
  | none => Except.error RetrieveError.NotFound
  | some e =>
      match e.expiry with
      | none => Except.ok e.artifact
      | some t =>
          if t < now then Except.error RetrieveError.Expired
          else Except.ok e.artifact

/-- The `status` state of the App component
(`useState<'idle' | 'success' | 'error'>('idle')` in `src/App.tsx`). -/
inductive UiStatus where
  | idle
  | success
  | error
  deriving DecidableEq

/-- Initial value of `status` in `src/App.tsx`: `'idle'`. -/
def initialStatus : UiStatus := UiStatus.idle

/-- The only user event wired to a state update in `src/App.tsx`:
the Test UI button's `onClick`. -/
inductive UiEvent where
  | testButtonClick
  deriving DecidableEq

/-- State update of the App component: the sole handler is
`onClick={() => setStatus('success')}`. -/
def uiStep : UiStatus → UiEvent → UiStatus :=
  fun _ _ => UiStatus.success

/-- Whether the confirmation message `✅ UI is working correctly!` is rendered:
`src/App.tsx` guards it with `status === 'success' && (...)`. -/
def successMessageShown : UiStatus → Bool :=
  fun s => decide (s = UiStatus.success)

/-- States of the App component reachable from the initial render under the
component's events. -/
inductive ReachableUi : UiStatus → Prop where
  | init : ReachableUi initialStatus
  | step {s : UiStatus} (e : UiEvent) : ReachableUi s → ReachableUi (uiStep s e)

/-! ### Gate Decision Engine -/

theorem any_eq_of_pointwise (os : List AssertionOutcome)
    (f : AssertionOutcome → AssertionOutcome) (p : AssertionOutcome → Bool)
    (h : ∀ o, p (f o) = p o) : (os.map f).any p = os.any p := by
  induction os with
  | nil => rfl
  | cons a t ih => simp [List.any_cons, h, ih]

/-- C1: for every outcome set, the gate verdict is `fail` iff some `blocking`
outcome is unsatisfied; rewriting the advisory outcomes in any way that keeps
severities and leaves blocking outcomes untouched never changes the verdict. -/
theorem gateVerdict_fail_iff_blocking_unsatisfied (os : List AssertionOutcome)
    (f : AssertionOutcome → AssertionOutcome)
    (hb : ∀ o, o.severity = Severity.blocking → f o = o)
    (hsev : ∀ o, (f o).severity = o.severity) :
    (gateVerdict os = GateVerdict.fail ↔
      ∃ o ∈ os, o.severity = Severity.blocking ∧ o.satisfied = false)
    ∧ gateVerdict (os.map f) = gateVerdict os := by
  constructor
  · unfold gateVerdict
    by_cases h : os.any (fun o => decide (o.severity = Severity.blocking) && !o.satisfied)
    · rw [if_pos h]
      simp only [true_iff]
      rcases List.any_eq_true.mp h with ⟨o, ho, hpo⟩
      refine ⟨o, ho, ?_, ?_⟩
      · exact of_decide_eq_true (Bool.and_elim_left hpo)
      · simpa using Bool.and_elim_right hpo
    · rw [if_neg h]
      simp only [reduceCtorEq, false_iff]
      rintro ⟨o, ho, hsevo, hsat⟩
      exact h (List.any_eq_true.mpr ⟨o, ho, by simp [hsevo, hsat]⟩)
  · unfold gateVerdict
    rw [any_eq_of_pointwise os f _ ?_]
    intro o
    by_cases hsevo : o.severity = Severity.blocking
    · rw [hb o hsevo]
    · have h1 : (f o).severity ≠ Severity.blocking := by rw [hsev o]; exact hsevo
      simp [hsevo, h1]

def passingOutcomes : List AssertionOutcome :=
  [⟨Category.performance, Severity.blocking, 9/10, 95/100, true, false⟩,
   ⟨Category.accessibility, Severity.advisory, 9/10, 7/10, false, false⟩]

def flipAdvisory (o : AssertionOutcome) : AssertionOutcome :=
  if o.severity = Severity.advisory then
    { o with satisfied := !o.satisfied, score := 0 }
  else o

theorem gateVerdict_fail_iff_blocking_unsatisfied_witness :
    gateVerdict (passingOutcomes.map flipAdvisory) = gateVerdict passingOutcomes :=
  (gateVerdict_fail_iff_blocking_unsatisfied passingOutcomes flipAdvisory
    (fun o h => by simp [flipAdvisory, h])
    (fun o => by by_cases h : o.severity = Severity.advisory <;> simp [flipAdvisory, h])).2

/-! ### Assertion Evaluator -/

/-- C8: for a config entry whose category has an aggregated metric, the outcome
is satisfied exactly when the actual score is at least the threshold — an
actual score equal to the threshold is satisfied. -/
theorem evaluateOne_satisfied_iff (metrics : List (Category × ℚ))
    (cfg : AssertionConfig) (sc : ℚ)
    (h : lookupMetric metrics cfg.category = some sc) :
    ((evaluateOne metrics cfg).satisfied = true ↔ cfg.minScore ≤ sc)
    ∧ (evaluateOne metrics cfg).score = sc := by
  unfold evaluateOne
  rw [h]
  simp

theorem evaluateOne_satisfied_iff_witness :
    (evaluateOne [(Category.performance, 9/10)]
      ⟨Category.performance, Severity.blocking, 9/10⟩).satisfied = true :=
  (evaluateOne_satisfied_iff [(Category.performance, 9/10)]
    ⟨Category.performance, Severity.blocking, 9/10⟩ (9/10) rfl).1.mpr le_rfl

/-- C4: a config entry whose category has no aggregated metric yields an
unsatisfied outcome with the `missing-metric` flag set, whatever its severity;
an outcome evaluated from a present metric never carries that flag, so the two
cases stay distinguishable in reporting. -/
theorem evaluateOne_missing_metric (metrics : List (Category × ℚ))
    (cfg : AssertionConfig)
    (h : lookupMetric metrics cfg.category = none) :
    (evaluateOne metrics cfg).satisfied = false
    ∧ (evaluateOne metrics cfg).missingMetric = true
    ∧ (evaluateOne metrics cfg).severity = cfg.severity
    ∧ ∀ (m2 : List (Category × ℚ)) (sc : ℚ),
        lookupMetric m2 cfg.category = some sc →
        (evaluateOne m2 cfg).missingMetric = false := by
  refine ⟨?_, ?_, ?_, ?_⟩
  · unfold evaluateOne; rw [h]
  · unfold evaluateOne; rw [h]
  · unfold evaluateOne; rw [h]
  · intro m2 sc h2
    unfold evaluateOne; rw [h2]

theorem evaluateOne_missing_metric_witness :
    (evaluateOne [] ⟨Category.seo, Severity.advisory, 9/10⟩).satisfied = false
    ∧ (evaluateOne [] ⟨Category.seo, Severity.advisory, 9/10⟩).missingMetric = true :=
  ⟨(evaluateOne_missing_metric [] ⟨Category.seo, Severity.advisory, 9/10⟩ rfl).1,
   (evaluateOne_missing_metric [] ⟨Category.seo, Severity.advisory, 9/10⟩ rfl).2.1⟩

/-! ### Metric Aggregator -/

/-- C3: for every non-empty sample sequence, the aggregator returns the
statistical median: relative to any ascending-sorted arrangement `s` of the
samples, the middle value when the count is odd and the average of the two
middle values when it is even. -/
theorem aggregate_is_median (l s : List ℚ) (hne : l ≠ [])
    (hp : l.Perm s) (hs : List.Sorted (· ≤ ·) s) :
    aggregate l = Except.ok (if l.length % 2 = 1 then s.getD (l.length / 2) 0
      else (s.getD (l.length / 2 - 1) 0 + s.getD (l.length / 2) 0) / 2) := by
  have hsort : List.insertionSort (· ≤ ·) l = s :=
    List.eq_of_perm_of_sorted ((List.perm_insertionSort _ l).trans hp)
      (List.sorted_insertionSort _ l) hs
  unfold aggregate
  rw [if_neg hne, hsort]
  split <;> rfl

theorem aggregate_is_median_witness :
    aggregate [95/100, 80/100, 70/100] = Except.ok (80/100) := by
  have h := aggregate_is_median [95/100, 80/100, 70/100] [70/100, 80/100, 95/100]
    (List.cons_ne_nil _ _) (List.reverse_perm _).symm
    (by norm_num [List.sorted_cons])
  simpa using h

/-! ### Run state machine -/

/-- C5: the run status machine accepts exactly `pending → running` and
`running → {passed, failed, errored}`; the three right-hand states are
terminal, and every attempted transition out of a terminal state is rejected
with `InvalidTransition` while the state stays unchanged. -/
theorem status_machine_spec :
    (terminal Status.passed = true ∧ terminal Status.failed = true
      ∧ terminal Status.errored = true)
    ∧ (∀ s t : Status, terminal s = true →
        transition s t = Except.error TransitionError.InvalidTransition
        ∧ applyTransition s t = (s, some TransitionError.InvalidTransition))
    ∧ (∀ s t s2 : Status, transition s t = Except.ok s2 →
        (s = Status.pending ∧ s2 = Status.running)
        ∨ (s = Status.running ∧ terminal s2 = true)) := by
  refine ⟨⟨rfl, rfl, rfl⟩, ?_, ?_⟩
  · intro s t h
    cases s <;> simp_all [terminal] <;> cases t <;>
      simp [transition, applyTransition]
  · intro s t s2 h
    cases s <;> cases t <;> simp_all [transition] <;> exact h ▸ rfl

theorem status_machine_spec_witness :
    transition Status.passed Status.running
      = Except.error TransitionError.InvalidTransition
    ∧ applyTransition Status.passed Status.running
      = (Status.passed, some TransitionError.InvalidTransition) :=
  status_machine_spec.2.1 Status.passed Status.running rfl

/-! ### Pipeline Orchestrator -/

/-- C2: for every run of the orchestrator, Deploy is invoked iff the gate
verdict is `pass`; a run whose terminal status is `failed` or `errored` never
invokes Deploy. -/
theorem deploy_iff_gate_pass (cfgs : List AssertionConfig)
    (buildResult : Except BuildError Nat)
    (audit : Nat → List (Category × List ℚ))
    (publish : Nat → Except PublishError Nat) :
    ((runPipeline cfgs buildResult audit publish).deployInvoked = true ↔
      (runPipeline cfgs buildResult audit publish).verdict = some GateVerdict.pass)
    ∧ (((runPipeline cfgs buildResult audit publish).status = Status.failed
        ∨ (runPipeline cfgs buildResult audit publish).status = Status.errored) →
        (runPipeline cfgs buildResult audit publish).deployInvoked = false)
    ∧ ((runPipeline cfgs buildResult audit publish).deployInvoked = true ↔
        Stage.deploy ∈ (runPipeline cfgs buildResult audit publish).stagesInvoked) := by
  unfold runPipeline
  cases buildResult with
  | error e => simp
  | ok art =>
    cases haggr : aggregateAll (audit art) with
    | error e => simp [haggr]
    | ok metrics =>
      cases hv : gateVerdict (evaluate cfgs metrics) with
      | pass =>
        cases hpub : publish art with
        | ok did => simp [haggr, hv, hpub]
        | error e => simp [haggr, hv, hpub]
      | fail => simp [haggr, hv]

theorem deploy_iff_gate_pass_witness :
    (runPipeline [⟨Category.performance, Severity.blocking, 1⟩]
      (Except.ok 0) (fun _ => [(Category.performance, [1, 1, 1])])
      (fun _ => Except.ok 7)).deployInvoked = true :=
  (deploy_iff_gate_pass [⟨Category.performance, Severity.blocking, 1⟩]
    (Except.ok 0) (fun _ => [(Category.performance, [1, 1, 1])])
    (fun _ => Except.ok 7)).1.mpr (by rfl)

theorem aggregateAll_error_of_mem_nil (measured : List (Category × List ℚ))
    (c : Category) (hm : (c, ([] : List ℚ)) ∈ measured) :
    aggregateAll measured = Except.error AggError.MissingSamples := by
  induction measured with
  | nil => cases hm
  | cons hd tl ih =>
    rcases List.mem_cons.mp hm with h | h
    · rw [← h]
      simp [aggregateAll, aggregate]
    · obtain ⟨c', ss⟩ := hd
      have htl := ih h
      cases hagg : aggregate ss with
      | error e => cases e; simp [aggregateAll, hagg]
      | ok m => simp [aggregateAll, hagg, htl]

/-- C6: a required category with fewer than one recorded sample makes
aggregation fail with `MissingSamples`, and the run terminates `errored`,
not `failed`. -/
theorem missing_samples_errors_run (cfgs : List AssertionConfig) (art : Nat)
    (measured : List (Category × List ℚ)) (c : Category)
    (publish : Nat → Except PublishError Nat)
    (hm : (c, ([] : List ℚ)) ∈ measured) :
    aggregateAll measured = Except.error AggError.MissingSamples
    ∧ (runPipeline cfgs (Except.ok art) (fun _ => measured) publish).status
        = Status.errored
    ∧ (runPipeline cfgs (Except.ok art) (fun _ => measured) publish).status
        ≠ Status.failed := by
  have h := aggregateAll_error_of_mem_nil measured c hm
  refine ⟨h, ?_, ?_⟩ <;> simp [runPipeline, h]

theorem missing_samples_errors_run_witness :
    (runPipeline lighthouseAssertions (Except.ok 0)
      (fun _ => [(Category.performance, [])]) (fun _ => Except.ok 0)).status
      = Status.errored :=
  (missing_samples_errors_run lighthouseAssertions 0
    [(Category.performance, [])] Category.performance (fun _ => Except.ok 0)
    (List.mem_singleton.mpr rfl)).2.1

/-- C7: when the Build collaborator fails, the run ends `errored`, the stages
Audit, Evaluate, Gate and Deploy are never invoked, and the exported record
contains zero assertion outcomes. -/
theorem build_failure_halts (cfgs : List AssertionConfig) (e : BuildError)
    (audit : Nat → List (Category × List ℚ))
    (publish : Nat → Except PublishError Nat) :
    (runPipeline cfgs (Except.error e) audit publish).status = Status.errored
    ∧ (runPipeline cfgs (Except.error e) audit publish).outcomes = []
    ∧ (runPipeline cfgs (Except.error e) audit publish).deployInvoked = false
    ∧ Stage.audit ∉ (runPipeline cfgs (Except.error e) audit publish).stagesInvoked
    ∧ Stage.evaluateStage ∉
        (runPipeline cfgs (Except.error e) audit publish).stagesInvoked
    ∧ Stage.gate ∉ (runPipeline cfgs (Except.error e) audit publish).stagesInvoked
    ∧ Stage.deploy ∉
        (runPipeline cfgs (Except.error e) audit publish).stagesInvoked := by
  refine ⟨rfl, rfl, rfl, ?_, ?_, ?_, ?_⟩ <;> simp [runPipeline]

theorem build_failure_halts_witness :
    (runPipeline lighthouseAssertions (Except.error BuildError.buildFailed)
      (fun _ => []) (fun _ => Except.ok 0)).status = Status.errored
    ∧ (runPipeline lighthouseAssertions (Except.error BuildError.buildFailed)
      (fun _ => []) (fun _ => Except.ok 0)).outcomes = [] :=
  ⟨(build_failure_halts lighthouseAssertions BuildError.buildFailed
      (fun _ => []) (fun _ => Except.ok 0)).1,
   (build_failure_halts lighthouseAssertions BuildError.buildFailed
      (fun _ => []) (fun _ => Except.ok 0)).2.1⟩

/-! ### Artifact Handoff -/

/-- C9: retrieving an artifact for a run id that was never stored yields
`NotFound`; retrieving one whose retention grace period has elapsed yields
`Expired`; the two error results are distinct from one another and from any
successful retrieval. -/
theorem retrieve_spec (store : List StoredEntry) (runId now : Nat) :
    (store.find? (fun e => decide (e.runId = runId)) = none →
      retrieve store runId now = Except.error RetrieveError.NotFound)
    ∧ (∀ e : StoredEntry,
        store.find? (fun e2 => decide (e2.runId = runId)) = some e →
        ∀ t : Nat, e.expiry = some t → t < now →
        retrieve store runId now = Except.error RetrieveError.Expired)
    ∧ (Except.error RetrieveError.NotFound ≠
        (Except.error RetrieveError.Expired : Except RetrieveError Nat))
    ∧ (∀ a : Nat,
        (Except.error RetrieveError.NotFound : Except RetrieveError Nat)
          ≠ Except.ok a
        ∧ (Except.error RetrieveError.Expired : Except RetrieveError Nat)
          ≠ Except.ok a) := by
  refine ⟨?_, ?_, ?_, ?_⟩
  · intro h
    unfold retrieve
    rw [h]
  · intro e he t ht hlt
    unfold retrieve
    rw [he]
    simp [ht, hlt]
  · intro h
    exact RetrieveError.noConfusion (Except.error.inj h)
  · intro a
    exact ⟨fun h => Except.noConfusion h, fun h => Except.noConfusion h⟩

theorem retrieve_spec_witness :
    retrieve [] 1 0 = Except.error RetrieveError.NotFound
    ∧ retrieve [⟨1, 42, some 5⟩] 1 10 = Except.error RetrieveError.Expired :=
  ⟨(retrieve_spec [] 1 0).1 rfl,
   (retrieve_spec [⟨1, 42, some 5⟩] 1 10).2.1 ⟨1, 42, some 5⟩ rfl 5 rfl
     (by decide)⟩

/-! ### App component -/

/-- C10: the App component's status starts as `idle`, the only state update
sets it to `success`, the confirmation message is rendered iff the status is
`success`; hence the message is absent on the initial render, a reachable
status is never `error`, and once `success` is reached every further event
keeps it `success`. -/
theorem app_status_invariants :
    initialStatus = UiStatus.idle
    ∧ successMessageShown initialStatus = false
    ∧ (∀ s : UiStatus, successMessageShown s = true ↔ s = UiStatus.success)
    ∧ (∀ s : UiStatus, ReachableUi s →
        s = UiStatus.idle ∨ s = UiStatus.success)
    ∧ (∀ s : UiStatus, ReachableUi s → s ≠ UiStatus.error)
    ∧ (∀ (s : UiStatus) (e : UiEvent), uiStep s e = UiStatus.success) := by
  have hre : ∀ s : UiStatus, ReachableUi s →
      s = UiStatus.idle ∨ s = UiStatus.success := by
    intro s h
    induction h with
    | init => exact Or.inl rfl
    | step e hprev ih => exact Or.inr rfl
  refine ⟨rfl, rfl, ?_, hre, ?_, ?_⟩
  · intro s
    cases s <;> simp [successMessageShown]
  · intro s h
    rcases hre s h with h1 | h1 <;> simp [h1]
  · intro s e
    rfl

theorem app_status_invariants_witness :
    successMessageShown initialStatus = false
    ∧ successMessageShown (uiStep initialStatus UiEvent.testButtonClick) = true :=
  ⟨app_status_invariants.2.1,
   (app_status_invariants.2.2.1
      (uiStep initialStatus UiEvent.testButtonClick)).mpr rfl⟩

end PerfPipeline
